import Mathlib

/-!
Verification of the TAP_SCHEMA staging-and-swap workflow of the
lsst-sqre/repertoire repository, shallowly embedded in Lean.

The embedding follows `src/repertoire/services/tap_schema.py`
(class `TAPSchemaService`), `src/repertoire/tap_schema/manager.py`
(class `TapSchemaManager`), `src/repertoire/storage/tap_schema.py`
(class `TAPSchemaStorage`), `src/repertoire/tap_schema/download.py`,
`src/repertoire/schema/version.py` and `src/repertoire/exceptions.py`.

Database state is modelled as an association list from namespace (schema)
names to namespace contents; a namespace content is a list of tables, each
a table name with its rows.  The SQL statements the workflow issues
(`ALTER SCHEMA .. RENAME TO ..`, `SELECT COUNT(*) ..`,
`INSERT .. ON CONFLICT (version) DO UPDATE SET loaded_at = ..`) are
modelled as functions on that state.
-/

set_option autoImplicit false

namespace Repertoire

/-! ## Database namespace model -/

/-- A row of the example tables used by the swap tests: `(id, data)`. -/
abbrev Row := Nat × String

/-- One table of a namespace: the table name together with its rows. -/
abbrev TableDef := String × List Row

/-- The full content of one database namespace (schema). -/
abbrev SchemaContent := List TableDef

/-- The database: an association list from namespace names to contents. -/
abbrev DBState := List (String × SchemaContent)

/-- Constant `STAGING_SCHEMA` of `services/tap_schema.py` (line 34). -/
def STAGING_SCHEMA : String := "tap_schema_staging"

/-- Constant `PRODUCTION_SCHEMA` of `services/tap_schema.py` (line 35). -/
def PRODUCTION_SCHEMA : String := "tap_schema"

/-- Constant `TEMP_SCHEMA` of `services/tap_schema.py` (line 36). -/
def TEMP_SCHEMA : String := "tap_schema_temp"

/-- Look a namespace up by name in the database state. -/
def lookupSchema : DBState → String → Option SchemaContent
  | [], _ => none
  | (n, c) :: rest, name => if n = name then some c else lookupSchema rest name

/-- The `information_schema.schemata` existence probe issued at the start of
`_swap_schemas` (services/tap_schema.py lines 412-419). -/
def schemaExists (db : DBState) (name : String) : Bool :=
  (lookupSchema db name).isSome

/-- Model of the PostgreSQL statement `ALTER SCHEMA src RENAME TO dst`:
it fails when `src` does not exist or `dst` already exists, and otherwise
moves the whole content of `src`, unchanged, under the name `dst`. -/
def renameSchema (db : DBState) (src dst : String) :
    Except String DBState :=
  match lookupSchema db src with
  | none => .error ("schema " ++ src ++ " does not exist")
  | some c =>
    if schemaExists db dst then
      .error ("schema " ++ dst ++ " already exists")
    else
      .ok (db.filter (fun p => p.1 != src) ++ [(dst, c)])

/-- One `ALTER SCHEMA .. RENAME TO ..` statement. -/
structure RenameOp where
  src : String
  dst : String
deriving Repr, DecidableEq

/-- Execute a list of rename statements in order, stopping at the first
failure. -/
def execRenames : List RenameOp → DBState → Except String DBState
  | [], db => .ok db
  | op :: rest, db =>
    match renameSchema db op.src op.dst with
    | .error e => .error e
    | .ok db2 => execRenames rest db2

/-- The sequence of rename statements issued by `_swap_schemas`
(services/tap_schema.py lines 427-468, manager.py lines 333-370): a single
rename staging→production when no production namespace exists, and the three
sequential renames production→temp, staging→production, temp→staging when it
does. -/
def swapRenameOps (prodExists : Bool) : List RenameOp :=
  if prodExists then
    [⟨PRODUCTION_SCHEMA, TEMP_SCHEMA⟩,
     ⟨STAGING_SCHEMA, PRODUCTION_SCHEMA⟩,
     ⟨TEMP_SCHEMA, STAGING_SCHEMA⟩]
  else
    [⟨STAGING_SCHEMA, PRODUCTION_SCHEMA⟩]

/-- `TAPSchemaService._swap_schemas` (services/tap_schema.py lines 403-472):
probe for the production namespace, then issue the corresponding rename
statements in order.  This definition yields the committed end state of the
swap; the statements actually run inside one `engine.begin()` transaction
block, modelled by `swapSchemasTx` below, which commits the same end state
(`swapSchemasTx_eq_swapSchemas`). -/
def swapSchemas (db : DBState) : Except String DBState :=
  execRenames (swapRenameOps (schemaExists db PRODUCTION_SCHEMA)) db

/-! ### The transaction boundary of the swap

`_swap_schemas` wraps the probe and all its rename statements in a single
`async with self._engine.begin() as conn:` block
(services/tap_schema.py line 411, manager.py line 323), which opens one
database transaction and commits it at block exit.  PostgreSQL DDL is
transactional: statements inside the open transaction act on the
transaction's own working state, an external reader sees only the
committed state, and a crash before the commit rolls the transaction
back. -/

/-- The state of an open transaction: the committed state an external
reader observes, and the working state the statements of the block act
on. -/
structure TxState where
  committed : DBState
  working : DBState
deriving Repr, DecidableEq

/-- Model of entering `engine.begin()`: the working state starts as a copy
of the committed state. -/
def beginTx (db : DBState) : TxState := ⟨db, db⟩

/-- Execute rename statements inside the open transaction: each statement
acts on the working state only; the committed state is untouched until the
block commits. -/
def execTxRenames : List RenameOp → TxState → Except String TxState
  | [], s => .ok s
  | op :: rest, s =>
    match renameSchema s.working op.src op.dst with
    | .error e => .error e
    | .ok w => execTxRenames rest ⟨s.committed, w⟩

/-- `_swap_schemas` with its transaction boundary: probe, run the renames
in one `engine.begin()` block, and commit the working state at block
exit. -/
def swapSchemasTx (db : DBState) : Except String DBState :=
  match execTxRenames (swapRenameOps (schemaExists db PRODUCTION_SCHEMA))
      (beginTx db) with
  | .error e => .error e
  | .ok s => .ok s.working

/-- The committed state an external reader observes when the process
crashes after the first `k` statements of the swap transaction but before
the block commits: the open transaction is rolled back, leaving
`TxState.committed`. -/
def swapCrashObservable (db : DBState) (k : Nat) : Except String DBState :=
  match execTxRenames
      ((swapRenameOps (schemaExists db PRODUCTION_SCHEMA)).take k)
      (beginTx db) with
  | .error e => .error e
  | .ok s => .ok s.committed

/-! ### Lookup lemmas for the rename model -/

theorem lookupSchema_append_some (l1 l2 : DBState) (x : String)
    (c : SchemaContent) (h : lookupSchema l1 x = some c) :
    lookupSchema (l1 ++ l2) x = some c := by
  induction l1 with
  | nil => simp [lookupSchema] at h
  | cons p rest ih =>
    obtain ⟨n, cc⟩ := p
    by_cases hn : n = x
    · subst hn
      simp [lookupSchema] at h ⊢
      exact h
    · simp [lookupSchema, hn] at h ⊢
      exact ih h

theorem lookupSchema_append_none (l1 l2 : DBState) (x : String)
    (h : lookupSchema l1 x = none) :
    lookupSchema (l1 ++ l2) x = lookupSchema l2 x := by
  induction l1 with
  | nil => simp [lookupSchema]
  | cons p rest ih =>
    obtain ⟨n, cc⟩ := p
    by_cases hn : n = x
    · subst hn
      simp [lookupSchema] at h
    · simp [lookupSchema, hn] at h ⊢
      exact ih h

theorem lookupSchema_filterOut_self (l : DBState) (nm : String) :
    lookupSchema (l.filter (fun p => p.1 != nm)) nm = none := by
  induction l with
  | nil => simp [lookupSchema]
  | cons p rest ih =>
    obtain ⟨n, cc⟩ := p
    rw [List.filter_cons]
    by_cases hn : n = nm
    · subst hn
      simpa using ih
    · simp [bne_iff_ne, hn, lookupSchema, ih]

theorem lookupSchema_filterOut_ne (l : DBState) (nm x : String)
    (h : x ≠ nm) :
    lookupSchema (l.filter (fun p => p.1 != nm)) x = lookupSchema l x := by
  induction l with
  | nil => simp [lookupSchema]
  | cons p rest ih =>
    obtain ⟨n, cc⟩ := p
    rw [List.filter_cons]
    by_cases hn : n = nm
    · subst hn
      have hx : ¬ n = x := fun hh => h hh.symm
      simp [lookupSchema, hx, ih]
    · by_cases hxn : n = x
      · simp [bne_iff_ne, hn, lookupSchema, hxn, h]
      · simp [bne_iff_ne, hn, lookupSchema, hxn, ih]

/-- When the source exists and the destination does not, a rename succeeds
and produces the filtered-plus-appended state. -/
theorem renameSchema_eq_ok (db : DBState) (src dst : String)
    (c : SchemaContent) (h1 : lookupSchema db src = some c)
    (h2 : lookupSchema db dst = none) :
    renameSchema db src dst =
      .ok (db.filter (fun p => p.1 != src) ++ [(dst, c)]) := by
  simp [renameSchema, h1, schemaExists, h2]

/-- After a successful rename, the destination holds the moved content. -/
theorem lookup_renamed_dst (db : DBState) (src dst : String)
    (c : SchemaContent) (h2 : lookupSchema db dst = none) :
    lookupSchema (db.filter (fun p => p.1 != src) ++ [(dst, c)]) dst
      = some c := by
  have hnone : lookupSchema (db.filter (fun p => p.1 != src)) dst = none := by
    by_cases h : dst = src
    · rw [h]
      exact lookupSchema_filterOut_self db src
    · rw [lookupSchema_filterOut_ne db src dst h]
      exact h2
  rw [lookupSchema_append_none _ _ _ hnone]
  simp [lookupSchema]

/-- After a successful rename, the source name is gone. -/
theorem lookup_renamed_src (db : DBState) (src dst : String)
    (c : SchemaContent) (h : src ≠ dst) :
    lookupSchema (db.filter (fun p => p.1 != src) ++ [(dst, c)]) src
      = none := by
  rw [lookupSchema_append_none _ _ _ (lookupSchema_filterOut_self db src)]
  have hds : ¬ dst = src := fun hh => h hh.symm
  simp [lookupSchema, hds]

/-- A rename leaves every other namespace untouched. -/
theorem lookup_renamed_other (db : DBState) (src dst : String)
    (c : SchemaContent) (x : String) (hx1 : x ≠ src) (hx2 : x ≠ dst) :
    lookupSchema (db.filter (fun p => p.1 != src) ++ [(dst, c)]) x
      = lookupSchema db x := by
  cases hdb : lookupSchema (db.filter (fun p => p.1 != src)) x with
  | some cc =>
    rw [lookupSchema_append_some _ _ _ _ hdb]
    rw [lookupSchema_filterOut_ne db src x hx1] at hdb
    exact hdb.symm
  | none =>
    rw [lookupSchema_append_none _ _ _ hdb]
    rw [lookupSchema_filterOut_ne db src x hx1] at hdb
    have hdx : ¬ dst = x := fun hh => hx2 hh.symm
    simp [lookupSchema, hdx, hdb]

/-- Executing a rename list steps through the first successful rename. -/
theorem execRenames_cons_ok (op : RenameOp) (rest : List RenameOp)
    (db db2 : DBState) (h : renameSchema db op.src op.dst = .ok db2) :
    execRenames (op :: rest) db = execRenames rest db2 := by
  simp [execRenames, h]

/-- Full characterisation of a successful rename: the destination receives
the exact content of the source, the source name disappears, and every other
namespace is untouched. -/
theorem renameSchema_spec (db : DBState) (src dst : String)
    (c : SchemaContent) (h1 : lookupSchema db src = some c)
    (h2 : lookupSchema db dst = none) (hne : src ≠ dst) :
    ∃ db2, renameSchema db src dst = .ok db2 ∧
      lookupSchema db2 dst = some c ∧
      lookupSchema db2 src = none ∧
      ∀ x, x ≠ src → x ≠ dst → lookupSchema db2 x = lookupSchema db x :=
  ⟨db.filter (fun p => p.1 != src) ++ [(dst, c)],
    renameSchema_eq_ok db src dst c h1 h2,
    lookup_renamed_dst db src dst c h2,
    lookup_renamed_src db src dst c hne,
    fun x hx1 hx2 => lookup_renamed_other db src dst c x hx1 hx2⟩

/-! ## Claim theorems about the swap (C1, C2, C3) -/

/-- Claim C1: when the production namespace exists at swap time, the swap
issues exactly the three renames production→temp, staging→production,
temp→staging in that order, and afterwards the production namespace holds
exactly the content staging held before while the staging namespace holds
exactly the content production held before. -/
theorem c1_swap_is_rotation (db : DBState) (pc sc : SchemaContent)
    (hp : lookupSchema db PRODUCTION_SCHEMA = some pc)
    (hs : lookupSchema db STAGING_SCHEMA = some sc)
    (ht : lookupSchema db TEMP_SCHEMA = none) :
    swapRenameOps (schemaExists db PRODUCTION_SCHEMA) =
      [⟨PRODUCTION_SCHEMA, TEMP_SCHEMA⟩,
       ⟨STAGING_SCHEMA, PRODUCTION_SCHEMA⟩,
       ⟨TEMP_SCHEMA, STAGING_SCHEMA⟩] ∧
    ∃ db3, swapSchemas db = .ok db3 ∧
      lookupSchema db3 PRODUCTION_SCHEMA = some sc ∧
      lookupSchema db3 STAGING_SCHEMA = some pc := by
  have hPT : PRODUCTION_SCHEMA ≠ TEMP_SCHEMA := by decide
  have hPS : PRODUCTION_SCHEMA ≠ STAGING_SCHEMA := by decide
  have hSP : STAGING_SCHEMA ≠ PRODUCTION_SCHEMA := by decide
  have hST : STAGING_SCHEMA ≠ TEMP_SCHEMA := by decide
  have hTS : TEMP_SCHEMA ≠ STAGING_SCHEMA := by decide
  have hTP : TEMP_SCHEMA ≠ PRODUCTION_SCHEMA := by decide
  have hex : schemaExists db PRODUCTION_SCHEMA = true := by
    simp [schemaExists, hp]
  obtain ⟨db1, e1, l1T, l1P, l1o⟩ :=
    renameSchema_spec db PRODUCTION_SCHEMA TEMP_SCHEMA pc hp ht hPT
  obtain ⟨db2, e2, l2P, l2S, l2o⟩ :=
    renameSchema_spec db1 STAGING_SCHEMA PRODUCTION_SCHEMA sc
      (by rw [l1o STAGING_SCHEMA hSP hST]; exact hs) l1P hSP
  obtain ⟨db3, e3, l3S, l3T, l3o⟩ :=
    renameSchema_spec db2 TEMP_SCHEMA STAGING_SCHEMA pc
      (by rw [l2o TEMP_SCHEMA hTS hTP]; exact l1T) l2S hTS
  constructor
  · rw [hex]
    rfl
  · refine ⟨db3, ?_, ?_, l3S⟩
    · unfold swapSchemas
      rw [hex]
      rw [show swapRenameOps true =
        [(⟨PRODUCTION_SCHEMA, TEMP_SCHEMA⟩ : RenameOp),
         ⟨STAGING_SCHEMA, PRODUCTION_SCHEMA⟩,
         ⟨TEMP_SCHEMA, STAGING_SCHEMA⟩] from rfl]
      rw [execRenames_cons_ok ⟨PRODUCTION_SCHEMA, TEMP_SCHEMA⟩ _ db db1 e1]
      rw [execRenames_cons_ok ⟨STAGING_SCHEMA, PRODUCTION_SCHEMA⟩ _ db1
        db2 e2]
      rw [execRenames_cons_ok ⟨TEMP_SCHEMA, STAGING_SCHEMA⟩ _ db2 db3 e3]
      rfl
    · rw [l3o PRODUCTION_SCHEMA hPT hPS]
      exact l2P

/-- Production content with table `test` holding row `(1, old)`. -/
def exampleProdContent : SchemaContent := [("test", [(1, "old")])]

/-- Staging content with table `test` holding row `(1, new)`. -/
def exampleStagingContent : SchemaContent := [("test", [(1, "new")])]

/-- A database state where both production and staging exist. -/
def exampleDb : DBState :=
  [(PRODUCTION_SCHEMA, exampleProdContent),
   (STAGING_SCHEMA, exampleStagingContent)]

/-- Witness for C1 at the example of the claim: production `test` holds
`(1, old)` and staging `test` holds `(1, new)` before the swap. -/
theorem c1_swap_is_rotation_witness :
    swapRenameOps (schemaExists exampleDb PRODUCTION_SCHEMA) =
      [⟨PRODUCTION_SCHEMA, TEMP_SCHEMA⟩,
       ⟨STAGING_SCHEMA, PRODUCTION_SCHEMA⟩,
       ⟨TEMP_SCHEMA, STAGING_SCHEMA⟩] ∧
    ∃ db3, swapSchemas exampleDb = .ok db3 ∧
      lookupSchema db3 PRODUCTION_SCHEMA = some exampleStagingContent ∧
      lookupSchema db3 STAGING_SCHEMA = some exampleProdContent :=
  c1_swap_is_rotation exampleDb exampleProdContent exampleStagingContent
    (by decide) (by decide) (by decide)

/-- Claim C2: when no production namespace exists at swap time, the swap
issues the single rename staging→production, after which production exists
with exactly the former staging content and no staging namespace remains. -/
theorem c2_first_deployment (db : DBState) (sc : SchemaContent)
    (hp : lookupSchema db PRODUCTION_SCHEMA = none)
    (hs : lookupSchema db STAGING_SCHEMA = some sc) :
    swapRenameOps (schemaExists db PRODUCTION_SCHEMA) =
      [⟨STAGING_SCHEMA, PRODUCTION_SCHEMA⟩] ∧
    ∃ db2, swapSchemas db = .ok db2 ∧
      schemaExists db2 PRODUCTION_SCHEMA = true ∧
      lookupSchema db2 PRODUCTION_SCHEMA = some sc ∧
      lookupSchema db2 STAGING_SCHEMA = none := by
  have hSP : STAGING_SCHEMA ≠ PRODUCTION_SCHEMA := by decide
  have hex : schemaExists db PRODUCTION_SCHEMA = false := by
    simp [schemaExists, hp]
  obtain ⟨db2, e, l2P, l2S, l2o⟩ :=
    renameSchema_spec db STAGING_SCHEMA PRODUCTION_SCHEMA sc hs hp hSP
  constructor
  · rw [hex]
    rfl
  · refine ⟨db2, ?_, ?_, l2P, l2S⟩
    · unfold swapSchemas
      rw [hex]
      rw [show swapRenameOps false =
        [(⟨STAGING_SCHEMA, PRODUCTION_SCHEMA⟩ : RenameOp)] from rfl]
      rw [execRenames_cons_ok ⟨STAGING_SCHEMA, PRODUCTION_SCHEMA⟩ _ db
        db2 e]
      rfl
    · simp [schemaExists, l2P]

/-- A first-deployment database state: only the staging namespace exists. -/
def exampleFirstDb : DBState := [(STAGING_SCHEMA, exampleStagingContent)]

/-- Witness for C2 with a concrete first-deployment state. -/
theorem c2_first_deployment_witness :
    swapRenameOps (schemaExists exampleFirstDb PRODUCTION_SCHEMA) =
      [⟨STAGING_SCHEMA, PRODUCTION_SCHEMA⟩] ∧
    ∃ db2, swapSchemas exampleFirstDb = .ok db2 ∧
      schemaExists db2 PRODUCTION_SCHEMA = true ∧
      lookupSchema db2 PRODUCTION_SCHEMA = some exampleStagingContent ∧
      lookupSchema db2 STAGING_SCHEMA = none :=
  c2_first_deployment exampleFirstDb exampleStagingContent
    (by decide) (by decide)

/-- Stepping the transaction through one successful rename statement. -/
theorem execTxRenames_cons_ok (op : RenameOp) (rest : List RenameOp)
    (s : TxState) (w : DBState)
    (h : renameSchema s.working op.src op.dst = .ok w) :
    execTxRenames (op :: rest) s = execTxRenames rest ⟨s.committed, w⟩ := by
  simp [execTxRenames, h]

/-- Inside the transaction, the committed state is never modified and the
working state evolves exactly as the plain statement sequence does. -/
theorem execTxRenames_eq (ops : List RenameOp) (c w : DBState) :
    execTxRenames ops ⟨c, w⟩ =
      Except.map (fun r => TxState.mk c r) (execRenames ops w) := by
  induction ops generalizing w with
  | nil => rfl
  | cons op rest ih =>
    cases h : renameSchema w op.src op.dst with
    | error e =>
      simp only [execTxRenames, execRenames, h]
      rfl
    | ok w2 => simp [execTxRenames, execRenames, h, ih]

/-- Committing the swap transaction yields exactly the end state of the
plain statement sequence, so the end-state theorems about `swapSchemas`
describe `swapSchemasTx` as well. -/
theorem swapSchemasTx_eq_swapSchemas (db : DBState) :
    swapSchemasTx db = swapSchemas db := by
  unfold swapSchemasTx swapSchemas beginTx
  rw [execTxRenames_eq]
  cases execRenames (swapRenameOps (schemaExists db PRODUCTION_SCHEMA)) db
    with
  | error e => rfl
  | ok r => rfl

/-- Counterexample to claim C3: the three renames of `_swap_schemas` all
run inside one `engine.begin()` transaction, so at every interruption
point of the swap — in particular between the first and second renames
(crash after one statement) — the externally observable committed state is
the rolled-back pre-swap state, which still contains the `tap_schema`
namespace.  Evaluated at the concrete example state with production
holding `(1, old)` and staging `(1, new)`. -/
theorem c3_observable_window_counterexample :
    swapCrashObservable exampleDb 0 = .ok exampleDb ∧
    swapCrashObservable exampleDb 1 = .ok exampleDb ∧
    swapCrashObservable exampleDb 2 = .ok exampleDb ∧
    swapCrashObservable exampleDb 3 = .ok exampleDb ∧
    schemaExists exampleDb PRODUCTION_SCHEMA = true :=
  ⟨rfl, rfl, rfl, rfl, rfl⟩

/-- Amended claim C3: the three-rename swap is issued as three separate
rename statements, all inside a single `engine.begin()` transaction; in
the transaction's own working state there is a point between the first and
second renames at which no namespace named `tap_schema` exists, but the
externally observable committed state at every interruption point before
the commit is the unchanged pre-swap state, which still holds
`tap_schema`. -/
theorem c3_swap_window_in_transaction (db : DBState)
    (pc sc : SchemaContent)
    (hp : lookupSchema db PRODUCTION_SCHEMA = some pc)
    (hs : lookupSchema db STAGING_SCHEMA = some sc)
    (ht : lookupSchema db TEMP_SCHEMA = none) :
    swapRenameOps (schemaExists db PRODUCTION_SCHEMA) =
      [⟨PRODUCTION_SCHEMA, TEMP_SCHEMA⟩,
       ⟨STAGING_SCHEMA, PRODUCTION_SCHEMA⟩,
       ⟨TEMP_SCHEMA, STAGING_SCHEMA⟩] ∧
    (∃ s, execTxRenames [⟨PRODUCTION_SCHEMA, TEMP_SCHEMA⟩] (beginTx db)
        = .ok s ∧
      schemaExists s.working PRODUCTION_SCHEMA = false ∧
      s.committed = db ∧
      schemaExists s.committed PRODUCTION_SCHEMA = true) ∧
    (∀ k : Nat, swapCrashObservable db k = .ok db) := by
  have hPT : PRODUCTION_SCHEMA ≠ TEMP_SCHEMA := by decide
  have hSP : STAGING_SCHEMA ≠ PRODUCTION_SCHEMA := by decide
  have hST : STAGING_SCHEMA ≠ TEMP_SCHEMA := by decide
  have hTS : TEMP_SCHEMA ≠ STAGING_SCHEMA := by decide
  have hTP : TEMP_SCHEMA ≠ PRODUCTION_SCHEMA := by decide
  have hex : schemaExists db PRODUCTION_SCHEMA = true := by
    simp [schemaExists, hp]
  obtain ⟨db1, e1, l1T, l1P, l1o⟩ :=
    renameSchema_spec db PRODUCTION_SCHEMA TEMP_SCHEMA pc hp ht hPT
  obtain ⟨db2, e2, l2P, l2S, l2o⟩ :=
    renameSchema_spec db1 STAGING_SCHEMA PRODUCTION_SCHEMA sc
      (by rw [l1o STAGING_SCHEMA hSP hST]; exact hs) l1P hSP
  obtain ⟨db3, e3, l3S, l3T, l3o⟩ :=
    renameSchema_spec db2 TEMP_SCHEMA STAGING_SCHEMA pc
      (by rw [l2o TEMP_SCHEMA hTS hTP]; exact l1T) l2S hTS
  have t1 : execTxRenames [⟨PRODUCTION_SCHEMA, TEMP_SCHEMA⟩] (beginTx db)
      = .ok ⟨db, db1⟩ := by
    rw [execTxRenames_cons_ok _ _ _ db1 e1]
    rfl
  have t2 : execTxRenames
      [⟨PRODUCTION_SCHEMA, TEMP_SCHEMA⟩,
       ⟨STAGING_SCHEMA, PRODUCTION_SCHEMA⟩] (beginTx db)
      = .ok ⟨db, db2⟩ := by
    rw [execTxRenames_cons_ok _ _ _ db1 e1,
      execTxRenames_cons_ok _ _ _ db2 e2]
    rfl
  have t3 : execTxRenames
      [⟨PRODUCTION_SCHEMA, TEMP_SCHEMA⟩,
       ⟨STAGING_SCHEMA, PRODUCTION_SCHEMA⟩,
       ⟨TEMP_SCHEMA, STAGING_SCHEMA⟩] (beginTx db)
      = .ok ⟨db, db3⟩ := by
    rw [execTxRenames_cons_ok _ _ _ db1 e1,
      execTxRenames_cons_ok _ _ _ db2 e2,
      execTxRenames_cons_ok _ _ _ db3 e3]
    rfl
  refine ⟨by rw [hex]; rfl, ⟨⟨db, db1⟩, t1, ?_, rfl, hex⟩, ?_⟩
  · simp [schemaExists, l1P]
  · intro k
    unfold swapCrashObservable
    rw [hex, show swapRenameOps true =
      [(⟨PRODUCTION_SCHEMA, TEMP_SCHEMA⟩ : RenameOp),
       ⟨STAGING_SCHEMA, PRODUCTION_SCHEMA⟩,
       ⟨TEMP_SCHEMA, STAGING_SCHEMA⟩] from rfl]
    match k with
    | 0 => rfl
    | 1 =>
      rw [show ([(⟨PRODUCTION_SCHEMA, TEMP_SCHEMA⟩ : RenameOp),
        ⟨STAGING_SCHEMA, PRODUCTION_SCHEMA⟩,
        ⟨TEMP_SCHEMA, STAGING_SCHEMA⟩].take 1)
          = [(⟨PRODUCTION_SCHEMA, TEMP_SCHEMA⟩ : RenameOp)] from rfl, t1]
    | 2 =>
      rw [show ([(⟨PRODUCTION_SCHEMA, TEMP_SCHEMA⟩ : RenameOp),
        ⟨STAGING_SCHEMA, PRODUCTION_SCHEMA⟩,
        ⟨TEMP_SCHEMA, STAGING_SCHEMA⟩].take 2)
          = [(⟨PRODUCTION_SCHEMA, TEMP_SCHEMA⟩ : RenameOp),
             ⟨STAGING_SCHEMA, PRODUCTION_SCHEMA⟩] from rfl, t2]
    | (n + 3) =>
      rw [List.take_of_length_le (by simp), t3]

/-- Witness for the amended C3 at the concrete two-namespace example
state. -/
theorem c3_swap_window_in_transaction_witness :
    swapRenameOps (schemaExists exampleDb PRODUCTION_SCHEMA) =
      [⟨PRODUCTION_SCHEMA, TEMP_SCHEMA⟩,
       ⟨STAGING_SCHEMA, PRODUCTION_SCHEMA⟩,
       ⟨TEMP_SCHEMA, STAGING_SCHEMA⟩] ∧
    (∃ s, execTxRenames [⟨PRODUCTION_SCHEMA, TEMP_SCHEMA⟩]
        (beginTx exampleDb) = .ok s ∧
      schemaExists s.working PRODUCTION_SCHEMA = false ∧
      s.committed = exampleDb ∧
      schemaExists s.committed PRODUCTION_SCHEMA = true) ∧
    (∀ k : Nat, swapCrashObservable exampleDb k = .ok exampleDb) :=
  c3_swap_window_in_transaction exampleDb exampleProdContent
    exampleStagingContent (by decide) (by decide) (by decide)

/-! ## Staging validation (C4)

Embedding of `TAPSchemaService._validate_staging`
(services/tap_schema.py lines 360-401) and `TAPSchemaValidationError`
(exceptions.py lines 98-108).  The staging schema-registry table
`tap_schema_staging.schemas11` is modelled by the list of its
`schema_name` values. -/

/-- The sentinel self-description row excluded by the validation query
`WHERE schema_name != ..` excluding the sentinel. -/
def sentinelSchemaName : String := "tap_schema"

/-- The sentinel-excluding `SELECT COUNT(*)` result. -/
def stagingSchemaCount (rows : List String) : Nat :=
  (rows.filter (fun s => s != sentinelSchemaName)).length

/-- Error raised when schema validation fails (exceptions.py lines 98-108,
with `stage` set to `validation` by the parent constructor and
`missing_schemas` defaulting to the empty list). -/
structure TAPSchemaValidationError where
  message : String
  schemaVersion : String
  missingSchemas : List String
  stage : String
deriving Repr, DecidableEq

/-- The error message built in `_validate_staging`
(services/tap_schema.py lines 392-396). -/
def validationMessage (expected found : Nat) : String :=
  "Expected " ++ toString expected ++ " schemas but found " ++ toString found

/-- `TAPSchemaService._validate_staging`: compare the filtered row count of
the staging schema registry with the length of the requested schema list
and raise `TAPSchemaValidationError` on any mismatch. -/
def validateStaging (rows schemaList : List String) (version : String) :
    Except TAPSchemaValidationError Unit :=
  let count := stagingSchemaCount rows
  if count = schemaList.length then
    .ok ()
  else
    .error ⟨validationMessage schemaList.length count, version, [],
      "validation"⟩

/-- Claim C4: staging validation passes exactly when the sentinel-excluded
row count of the staging schema registry equals the number of requested
schema names, and on any other count it raises a validation error carrying
the expected count, the found count and the schema version. -/
theorem c4_validation_count_law (rows schemaList : List String)
    (version : String) :
    ((validateStaging rows schemaList version).isOk ↔
      stagingSchemaCount rows = schemaList.length) ∧
    (stagingSchemaCount rows ≠ schemaList.length →
      validateStaging rows schemaList version =
        .error ⟨validationMessage schemaList.length
          (stagingSchemaCount rows), version, [], "validation"⟩) := by
  unfold validateStaging
  by_cases h : stagingSchemaCount rows = schemaList.length <;>
    simp [h, Except.isOk, Except.toBool]

/-- Witness for C4: with rows `[tap_schema, dp02_dc2, extra]` and one
requested schema, validation fails carrying expected count 1 and found
count 2. -/
theorem c4_validation_count_law_witness :
    validateStaging ["tap_schema", "dp02_dc2", "extra"] ["dp02_dc2"]
        "w.2025.43" =
      .error ⟨validationMessage 1 2, "w.2025.43", [], "validation"⟩ :=
  (c4_validation_count_law ["tap_schema", "dp02_dc2", "extra"]
    ["dp02_dc2"] "w.2025.43").2 (by decide)

/-! ## Schema loading order (C6)

Embedding of `TAPSchemaService._load_schemas`
(services/tap_schema.py lines 247-312) and `TAPSchemaNotFoundError`
(exceptions.py lines 68-81).  The extracted document directory is modelled
by the list of the stems of its `.yaml` files. -/

/-- Insert a string into a sorted list, keeping ascending order. -/
def insertSorted (a : String) : List String → List String
  | [] => [a]
  | b :: rest => if a ≤ b then a :: b :: rest else b :: insertSorted a rest

/-- Model of Python `sorted` on a list of strings, as used for the
`available` diagnostic list (services/tap_schema.py line 279). -/
def sortStrings : List String → List String
  | [] => []
  | a :: rest => insertSorted a (sortStrings rest)

/-- The message of `TAPSchemaNotFoundError` (exceptions.py lines 76-78). -/
def notFoundMessage (schemaName : String) (available : List String) :
    String :=
  let base := "Schema not found: " ++ schemaName ++ ".yaml"
  if available.isEmpty then base
  else base ++ "\nAvailable: " ++ String.intercalate ", " available

/-- Error raised when a schema document is missing
(exceptions.py lines 68-81). -/
structure TAPSchemaNotFoundError where
  message : String
  schemaName : String
  availableSchemas : List String
deriving Repr, DecidableEq

/-- `TAPSchemaService._load_schemas`: walk the caller-supplied schema list
in order; for each name first check that its document exists, aborting with
`TAPSchemaNotFoundError` (carrying the sorted list of stems actually
present) before any later schema is processed; otherwise load it.  The
result is the list of schemas actually loaded, in load order, together with
the error if one was raised. -/
def loadSchemas (present : List String) :
    List String → List String × Option TAPSchemaNotFoundError
  | [] => ([], none)
  | name :: rest =>
    if name ∈ present then
      let r := loadSchemas present rest
      (name :: r.1, r.2)
    else
      ([], some ⟨notFoundMessage name (sortStrings present), name,
        sortStrings present⟩)

/-- Claim C6: schemas are processed in exactly the list order and each
document existence check happens before the document is loaded; when the
schema list is `pre ++ [m] ++ post` with every schema of `pre` present and
`m` missing, exactly the schemas of `pre` are loaded, in order, and the run
aborts with a not-found error naming `m` and carrying the sorted list of
documents actually present, with nothing of `post` loaded. -/
theorem c6_load_order (present pre post : List String) (m : String)
    (h1 : ∀ x ∈ pre, x ∈ present) (h2 : m ∉ present) :
    loadSchemas present (pre ++ m :: post) =
      (pre, some ⟨notFoundMessage m (sortStrings present), m,
        sortStrings present⟩) := by
  induction pre with
  | nil => simp [loadSchemas, h2]
  | cons a rest ih =>
    have ha : a ∈ present := h1 a (by simp)
    have hrest : ∀ x ∈ rest, x ∈ present := fun x hx => h1 x (by simp [hx])
    simp [loadSchemas, ha, ih hrest]

/-- Witness for C6 at the example of the claim: schema list `[A, B, C]`
with document `B` missing loads only `A` and reports `B` missing with
`[A, C]` available. -/
theorem c6_load_order_witness :
    loadSchemas ["A", "C"] ["A", "B", "C"] =
      (["A"], some ⟨notFoundMessage "B" (sortStrings ["A", "C"]), "B",
        sortStrings ["A", "C"]⟩) :=
  c6_load_order ["A", "C"] ["A"] ["C"] "B" (by decide) (by decide)

/-! ## Version ledger upsert (C7)

Embedding of `TAPSchemaService._record_version`
(services/tap_schema.py lines 338-358): an
`INSERT .. ON CONFLICT (version) DO UPDATE SET loaded_at = now()` against
the version ledger table.  Timestamps are modelled as naturals supplied by
the caller (the database clock). -/

/-- One row of the version ledger table. -/
structure VersionRow where
  version : String
  loadedAt : Nat
deriving Repr, DecidableEq

/-- The upsert of `_record_version`: on a primary-key conflict on `version`
only `loaded_at` is set to the current time; otherwise a new row is
inserted. -/
def recordVersion (ledger : List VersionRow) (v : String) (now : Nat) :
    List VersionRow :=
  if ledger.any (fun r => r.version == v) then
    ledger.map (fun r =>
      if r.version == v then { r with loadedAt := now } else r)
  else
    ledger ++ [⟨v, now⟩]

theorem versionRows_update (l : List VersionRow) (v : String) (now : Nat) :
    (l.map (fun r =>
        if r.version == v then { r with loadedAt := now } else r)).filter
      (fun r => r.version == v)
      = List.replicate (l.filter (fun r => r.version == v)).length
          (⟨v, now⟩ : VersionRow) := by
  induction l with
  | nil => simp
  | cons r rest ih =>
    by_cases h : r.version = v
    · simpa [h, List.replicate_succ] using ih
    · simpa [h] using ih

/-- One upsert leaves exactly one ledger row for the recorded version, with
`loaded_at` equal to the supplied time, provided the ledger respected the
primary key before. -/
theorem recordVersion_rows (l : List VersionRow) (v : String) (now : Nat)
    (h : (l.filter (fun r => r.version == v)).length ≤ 1) :
    (recordVersion l v now).filter (fun r => r.version == v)
      = [⟨v, now⟩] := by
  unfold recordVersion
  by_cases hany : l.any (fun r => r.version == v) = true
  · simp only [hany, if_true]
    have hne : l.filter (fun r => r.version == v) ≠ [] := by
      intro hnil
      rw [List.any_eq_true] at hany
      obtain ⟨x, hx, hpx⟩ := hany
      have hmem : x ∈ l.filter (fun r => r.version == v) :=
        List.mem_filter.mpr ⟨hx, hpx⟩
      rw [hnil] at hmem
      simp at hmem
    have hlen : (l.filter (fun r => r.version == v)).length = 1 := by
      refine Nat.le_antisymm h ?_
      exact Nat.one_le_iff_ne_zero.mpr
        (fun hz => hne (List.length_eq_zero.mp hz))
    rw [versionRows_update, hlen]
    rfl
  · rw [Bool.not_eq_true] at hany
    simp only [hany, Bool.false_eq_true, if_false]
    have hfil : l.filter (fun r => r.version == v) = [] := by
      rw [List.filter_eq_nil_iff]
      intro a hal
      rw [List.any_eq_false] at hany
      exact fun hb => hany a hal hb
    rw [List.filter_append, hfil]
    simp

/-- A second upsert for an already present version changes no row count. -/
theorem recordVersion_conflict_length (l : List VersionRow) (v : String)
    (now : Nat) (hany : l.any (fun r => r.version == v) = true) :
    (recordVersion l v now).length = l.length := by
  unfold recordVersion
  simp only [hany, if_true, List.length_map]

/-- Claim C7: recording a version, then recording the same version again at
a strictly later time, leaves exactly one ledger row for that version whose
`loaded_at` is the later time; the second recording updates a row in place
(the row count is unchanged) and never inserts a second row. -/
theorem c7_version_upsert (ledger : List VersionRow) (v : String)
    (t1 t2 : Nat)
    (hwf : (ledger.filter (fun r => r.version == v)).length ≤ 1)
    (hlt : t1 < t2) :
    ((recordVersion ledger v t1).filter (fun r => r.version == v)
        = [⟨v, t1⟩]) ∧
    ((recordVersion (recordVersion ledger v t1) v t2).filter
        (fun r => r.version == v) = [⟨v, t2⟩]) ∧
    (recordVersion (recordVersion ledger v t1) v t2).length
        = (recordVersion ledger v t1).length ∧
    t1 < t2 := by
  have h1 := recordVersion_rows ledger v t1 hwf
  have h2 := recordVersion_rows (recordVersion ledger v t1) v t2
    (by rw [h1]; simp)
  have hany : (recordVersion ledger v t1).any
      (fun r => r.version == v) = true := by
    rw [List.any_eq_true]
    have hmem : (⟨v, t1⟩ : VersionRow) ∈
        (recordVersion ledger v t1).filter (fun r => r.version == v) := by
      rw [h1]
      simp
    obtain ⟨hm, hp⟩ := List.mem_filter.mp hmem
    exact ⟨_, hm, hp⟩
  exact ⟨h1, h2, recordVersion_conflict_length _ v t2 hany, hlt⟩

/-- Witness for C7: recording version `v1` twice, at times 0 and 1, on an
empty ledger. -/
theorem c7_version_upsert_witness :
    ((recordVersion [] "v1" 0).filter (fun r => r.version == "v1")
        = [⟨"v1", 0⟩]) ∧
    ((recordVersion (recordVersion [] "v1" 0) "v1" 1).filter
        (fun r => r.version == "v1") = [⟨"v1", 1⟩]) ∧
    (recordVersion (recordVersion [] "v1" 0) "v1" 1).length
        = (recordVersion [] "v1" 0).length ∧
    0 < 1 :=
  c7_version_upsert [] "v1" 0 1 (by decide) (by decide)

/-! ## Download scheme dispatch (C8)

Embedding of the scheme dispatch of
`TAPSchemaStorage.download_and_extract` (storage/tap_schema.py lines
85-100) and of `download_schemas` (tap_schema/download.py lines 171-186).
A URL template is a sequence of literal segments and `version`
placeholders; resolving it models `str.format`, and the scheme is read off
the resolved URL as `urlparse` does for a well-formed scheme part. -/

/-- One segment of a source URL template. -/
inductive TemplateSeg where
  | lit (s : String)
  | versionHole
deriving Repr, DecidableEq

/-- Model of `source_url_template.format(version=schema_version)`. -/
def resolveTemplate (version : String) : List TemplateSeg → String
  | [] => ""
  | .lit s :: rest => s ++ resolveTemplate version rest
  | .versionHole :: rest => version ++ resolveTemplate version rest

/-- The scheme `urlparse` extracts from a URL with a well-formed scheme
part: the lowercased text before the first colon, empty when there is no
colon. -/
def urlScheme (url : String) : String :=
  if url.data.contains (Char.ofNat 58) then
    String.mk ((url.data.takeWhile (fun c => c != Char.ofNat 58)).map
      Char.toLower)
  else ""

/-- The network download the dispatch would start: the GCS blob download
branch or the streaming HTTP branch. -/
inductive DownloadAction where
  | gcsDownload (url : String)
  | httpDownload (url : String)
deriving Repr, DecidableEq

/-- The `ValueError` message of the unsupported-scheme branch
(storage/tap_schema.py lines 97-100). -/
def unsupportedSchemeMessage (scheme : String) : String :=
  "Unsupported URL scheme: " ++ scheme ++
    ". Supported schemes: gs, http, https"

/-- The scheme dispatch of `download_and_extract`: resolve the template,
parse the scheme, and either select a download action or reject the URL
with an error naming the scheme.  An error means no download action is
produced, hence no network call is attempted. -/
def dispatchDownload (schemaVersion : String)
    (sourceUrlTemplate : List TemplateSeg) :
    Except String DownloadAction :=
  let url := resolveTemplate schemaVersion sourceUrlTemplate
  let scheme := urlScheme url
  if scheme = "gs" then .ok (.gcsDownload url)
  else if scheme = "http" ∨ scheme = "https" then .ok (.httpDownload url)
  else .error (unsupportedSchemeMessage scheme)

/-- Claim C8: a URL template resolving to any scheme other than `gs`,
`http` or `https` is rejected with an error naming the offending scheme,
and no download action is produced, so no network call is attempted. -/
theorem c8_unsupported_scheme (schemaVersion : String)
    (sourceUrlTemplate : List TemplateSeg)
    (hgs : urlScheme (resolveTemplate schemaVersion sourceUrlTemplate)
      ≠ "gs")
    (hhttp : urlScheme (resolveTemplate schemaVersion sourceUrlTemplate)
      ≠ "http")
    (hhttps : urlScheme (resolveTemplate schemaVersion sourceUrlTemplate)
      ≠ "https") :
    dispatchDownload schemaVersion sourceUrlTemplate =
      .error (unsupportedSchemeMessage
        (urlScheme (resolveTemplate schemaVersion sourceUrlTemplate))) ∧
    ∀ a, dispatchDownload schemaVersion sourceUrlTemplate ≠ .ok a := by
  have hdis : dispatchDownload schemaVersion sourceUrlTemplate =
      .error (unsupportedSchemeMessage
        (urlScheme (resolveTemplate schemaVersion sourceUrlTemplate))) := by
    unfold dispatchDownload
    simp [hgs, hhttp, hhttps]
  exact ⟨hdis, fun a ha => by rw [hdis] at ha; exact Except.noConfusion ha⟩

/-- Witness for C8: the template `ftp://example.com/VERSION.tar.gz`
resolves to scheme `ftp` and is rejected with an error naming `ftp`. -/
theorem c8_unsupported_scheme_witness :
    dispatchDownload "w.2025.43"
      [.lit "ftp://example.com/", .versionHole, .lit ".tar.gz"] =
      .error (unsupportedSchemeMessage (urlScheme (resolveTemplate
        "w.2025.43"
        [.lit "ftp://example.com/", .versionHole, .lit ".tar.gz"]))) ∧
    ∀ a, dispatchDownload "w.2025.43"
      [.lit "ftp://example.com/", .versionHole, .lit ".tar.gz"] ≠ .ok a :=
  c8_unsupported_scheme "w.2025.43"
    [.lit "ftp://example.com/", .versionHole, .lit ".tar.gz"]
    (by decide) (by decide) (by decide)

/-! ## Locating the schema directory (C10)

Embedding of `TAPSchemaStorage._locate_schema_directory`
(storage/tap_schema.py lines 252-300) and of the matching code of
`download_schemas` (tap_schema/download.py lines 190-209).  The extraction
root is modelled by its entries in iteration order; for each entry we
record whether it is a directory, whether the fixed relative path
`python/lsst/sdm/schemas` exists below it, and which `.yaml` files that
path holds. -/

/-- One top-level entry of the extraction root. -/
structure FSEntry where
  name : String
  isDir : Bool
  hasSchemasPath : Bool
  yamlFiles : List String
deriving Repr, DecidableEq

/-- Error raised when the extracted directory structure is invalid
(exceptions.py lines 111-121). -/
structure TAPSchemaDirectoryError where
  message : String
  schemaDir : Option String
deriving Repr, DecidableEq

/-- The fixed relative path appended to the first extracted directory
(storage/tap_schema.py line 280). -/
def schemasRelPath : String := "/python/lsst/sdm/schemas"

/-- `TAPSchemaStorage._locate_schema_directory`: keep only directories, in
iteration order, take the FIRST one, and require the fixed relative path
below it to exist and to contain at least one `.yaml` file. -/
def locateSchemaDirectory (entries : List FSEntry) :
    Except TAPSchemaDirectoryError String :=
  match entries.filter (fun d => d.isDir) with
  | [] => .error ⟨"No directories found after extraction", none⟩
  | top :: _ =>
    let yamlDir := top.name ++ schemasRelPath
    if !top.hasSchemasPath then
      .error ⟨"Schema directory not found: " ++ yamlDir, some yamlDir⟩
    else if top.yamlFiles.isEmpty then
      .error ⟨"No YAML files found in " ++ yamlDir, some yamlDir⟩
    else
      .ok yamlDir

/-- Claim C10: the schema directory is looked up only under the first
directory entry of the extraction root; when that first directory lacks
`python/lsst/sdm/schemas`, the lookup fails with a directory-structure
error regardless of what the remaining entries contain. -/
theorem c10_first_directory_only (pre : List FSEntry) (e : FSEntry)
    (rest : List FSEntry) (hpre : ∀ x ∈ pre, x.isDir = false)
    (hdir : e.isDir = true) (hmiss : e.hasSchemasPath = false) :
    locateSchemaDirectory (pre ++ e :: rest) =
      .error ⟨"Schema directory not found: " ++ (e.name ++ schemasRelPath),
        some (e.name ++ schemasRelPath)⟩ := by
  have hfil : (pre ++ e :: rest).filter (fun d => d.isDir)
      = e :: rest.filter (fun d => d.isDir) := by
    rw [List.filter_append]
    have : pre.filter (fun d => d.isDir) = [] := by
      rw [List.filter_eq_nil_iff]
      intro a ha
      simp [hpre a ha]
    rw [this, List.nil_append, List.filter_cons, hdir]
    simp
  unfold locateSchemaDirectory
  rw [hfil]
  simp [hmiss]

/-- Witness for C10: the first directory of the extraction root lacks the
schema path while a later directory has it with a recognized document; the
lookup still fails with the directory-structure error for the first
directory. -/
theorem c10_first_directory_only_witness :
    locateSchemaDirectory
      [⟨"README.md", false, false, []⟩,
       ⟨"bad-0.1", true, false, []⟩,
       ⟨"good-0.2", true, true, ["dp02_dc2.yaml"]⟩] =
      .error ⟨"Schema directory not found: "
          ++ ("bad-0.1" ++ schemasRelPath),
        some ("bad-0.1" ++ schemasRelPath)⟩ :=
  c10_first_directory_only [⟨"README.md", false, false, []⟩]
    ⟨"bad-0.1", true, false, []⟩
    [⟨"good-0.2", true, true, ["dp02_dc2.yaml"]⟩]
    (by decide) (by decide) (by decide)

/-! ## Orchestrator step order (C5)

Embedding of `TAPSchemaService._execute_update`
(services/tap_schema.py lines 119-162) and `TapSchemaManager.update`
(tap_schema/manager.py lines 85-115), which execute the same sequence of
steps in straight-line order. -/

/-- The steps of one update run. -/
inductive UpdateStep where
  | initializeSchemas
  | initializeDatabase
  | downloadExtract
  | loadSchemas
  | recordVersion
  | createViews
  | validateStaging
  | swapSchemas
deriving Repr, DecidableEq

/-- The straight-line step order of `_execute_update`
(services/tap_schema.py): `_initialize_schemas` (line 134), table-manager
initialization `_initialize_database` (line 138), `download_and_extract`
(line 145), `_load_schemas` (line 156), `_record_version` (line 159),
`_create_views` (line 160), `_validate_staging` (line 161),
`_swap_schemas` (line 162).  `TapSchemaManager.update` (manager.py lines
95-112) runs the same order. -/
def executeUpdateSteps : List UpdateStep :=
  [.initializeSchemas, .initializeDatabase, .downloadExtract,
   .loadSchemas, .recordVersion, .createViews, .validateStaging,
   .swapSchemas]

/-- Counterexample to claim C5: in the implemented step order the views
are NOT created before the version row is upserted; `_record_version`
runs strictly before `_create_views`. -/
theorem c5_counterexample :
    ¬ (executeUpdateSteps.indexOf UpdateStep.createViews
        < executeUpdateSteps.indexOf UpdateStep.recordVersion) := by
  decide

/-- Amended claim C5: the orchestrator executes staging reset, then
staging-table initialization, then download/extract, then schema load,
then version recording, then view creation, then validation, then swap —
the Version Ledger row is upserted strictly BEFORE the views are
created. -/
theorem c5_step_order :
    executeUpdateSteps.indexOf UpdateStep.initializeSchemas
        < executeUpdateSteps.indexOf UpdateStep.initializeDatabase ∧
    executeUpdateSteps.indexOf UpdateStep.initializeDatabase
        < executeUpdateSteps.indexOf UpdateStep.downloadExtract ∧
    executeUpdateSteps.indexOf UpdateStep.downloadExtract
        < executeUpdateSteps.indexOf UpdateStep.loadSchemas ∧
    executeUpdateSteps.indexOf UpdateStep.loadSchemas
        < executeUpdateSteps.indexOf UpdateStep.recordVersion ∧
    executeUpdateSteps.indexOf UpdateStep.recordVersion
        < executeUpdateSteps.indexOf UpdateStep.createViews ∧
    executeUpdateSteps.indexOf UpdateStep.createViews
        < executeUpdateSteps.indexOf UpdateStep.validateStaging ∧
    executeUpdateSteps.indexOf UpdateStep.validateStaging
        < executeUpdateSteps.indexOf UpdateStep.swapSchemas := by
  decide

/-! ## Version ledger table name (C9)

Embedding of the version-table naming: `TAPSchemaVersion`
(schema/version.py lines 15-25) declares `__tablename__ = "version11"`
inside schema `tap_schema_staging`, and `TapSchemaManager._record_version`
(manager.py lines 234-248) builds the table name from the postfix. -/

/-- The `__tablename__` of `TAPSchemaVersion` (schema/version.py
line 18). -/
def tapSchemaVersionTableName : String := "version11"

/-- The namespace of `TAPSchemaVersion` (schema/version.py line 19). -/
def tapSchemaVersionTableNamespace : String := "tap_schema_staging"

/-- The version table name built by `TapSchemaManager._record_version`
(manager.py line 238). -/
def managerVersionTableName (pfx : String) : String :=
  "version" ++ pfx

/-- The default `table_postfix` of both managers (services/tap_schema.py
line 81, manager.py line 75). -/
def defaultTablePfx : String := "11"

/-- Claim C9 evaluated on the code: the version ledger table is named
`version11` — the postfixed name, not the unpostfixed `version` the claim
and the repository tests expect — and it is created inside the staging
namespace. -/
theorem c9_version_table_name :
    tapSchemaVersionTableName = "version11" ∧
    tapSchemaVersionTableName ≠ "version" ∧
    managerVersionTableName defaultTablePfx = "version11" ∧
    tapSchemaVersionTableNamespace = STAGING_SCHEMA := by
  decide

end Repertoire
